import Mathlib

/-
Verification of the Client Sync Agent of the DocCollab frontend
(src/src/pages/DocumentEditor.jsx), shallowly embedded as a guarded
transition system.  Each UI handler of the editor page becomes one
event of the system; the actions a handler performs (socket emits,
REST requests, toasts, navigation, disconnect) are recorded in order
as an action list, so that ordering claims (emit before disconnect)
and payload-shape claims (field names of emitted objects) can be
stated directly.
-/

namespace DocCollab

/-- Entry of the sharedWith list of a document: a role grant
of shape (userId, role) with role normally "viewer" or "editor". -/
structure SharedEntry where
  userId : String
  role : String
deriving DecidableEq

/-- State of the Client Sync Agent (DocumentEditor component), after the
document metadata has been fetched.  `content` models both the `content`
state and `contentRef.current`, which the effect at lines 41-43 keeps in
sync with it.  `socketOpen` is whether the socket object exists
(`setSocket` ran); `socketConnected` is the live connected flag of the
socket. -/
structure AgentState where
  documentId : String
  userId : String
  ownerId : String
  sharedWith : List SharedEntry
  content : String
  socketOpen : Bool
  socketConnected : Bool
  isSaving : Bool
  isRestoring : Bool
  showHistoryModal : Bool
  versionPage : Nat
  versionTotalPages : Nat
  isLoadingVersions : Bool
deriving DecidableEq

/-- Line 46: isOwner is whether the owner id of the document equals the
id of the current user. -/
def isOwner (s : AgentState) : Bool := s.ownerId == s.userId

/-- Lines 47-48: role is "owner" for the owner, else the role found for
the current user in sharedWith, else "viewer".  The JavaScript
disjunction with the literal string "viewer" maps a falsy (empty) stored
role to "viewer" as well, which the inner conditional reproduces. -/
def userRole (s : AgentState) : String :=
  if isOwner s then "owner"
  else
    match s.sharedWith.find? (fun e => e.userId == s.userId) with
    | some e => if e.role == "" then "viewer" else e.role
    | none => "viewer"

/-- Line 49: the editor is read-only exactly when the role is "viewer". -/
def isReadOnly (s : AgentState) : Bool := userRole s == "viewer"

/-- Observable actions a handler performs, in program order.  Socket
emissions carry the event name and the payload as an ordered list of
field-name / value pairs, exactly as the object literal is written in
the source. -/
inductive Action where
  | emit (event : String) (payload : List (String × String))
  | disconnect
  | navigate (path : String)
  | toastSuccess (msg : String)
  | toastError (msg : String)
  | fetchVersionsRequest (page : Nat) (limit : Nat)
  | restoreRequest (versionId : String)
deriving DecidableEq

/-- Payload of a send-changes emit, lines 109 and 183: the object literal
in the source has the fields documentId and delta, so the edited content
travels under the field name "delta". -/
def sendChangesPayload (s : AgentState) (c : String) : List (String × String) :=
  [("documentId", s.documentId), ("delta", c)]

/-- Payload of a save-document emit, lines 91-95, 118 and 132: an object
with the fields documentId, content and savedBy. -/
def saveDocumentPayload (s : AgentState) (c : String) : List (String × String) :=
  [("documentId", s.documentId), ("content", c), ("savedBy", s.userId)]

/-- Events that can happen to the mounted editor.  `userEdit` carries the
Quill change source ("user" for direct typing, "api" or "silent" for
programmatic updates).  `versionsLoaded` is the arrival of a version-list
response with the currentPage and totalPages the server reported;
`versionsLoadFailed` is its failure path.  `restoreClick` is one press of
a restore button for the snapshot displayed at `index` on the current
page, carrying whether the confirm prompt was accepted and whether the
REST restore call succeeded, together with the restored content it
returned. -/
inductive Ev where
  | socketSetup
  | userEdit (newContent : String) (src : String)
  | receiveChanges (incoming : String)
  | manualSave
  | saveTimerDone
  | goBack
  | unmount
  | openHistory
  | versionsLoaded (currentPage : Nat) (totalPages : Nat)
  | versionsLoadFailed
  | prevPage
  | nextPage
  | restoreClick (versionId : String) (index : Nat) (confirmed : Bool) (ok : Bool)
      (restored : String)
deriving DecidableEq

/-- Line 385: the restore button of the snapshot at `index` is disabled
while a restore is in flight, and for the first snapshot of page 1. -/
def restoreDisabled (s : AgentState) (index : Nat) : Bool :=
  s.isRestoring || (index == 0 && s.versionPage == 1)

/-- Line 401: the previous-page control is disabled on page 1 or while
the list is loading. -/
def prevPageDisabled (s : AgentState) : Bool :=
  s.versionPage == 1 || s.isLoadingVersions

/-- Line 411: the next-page control is disabled on the last reported page
or while the list is loading. -/
def nextPageDisabled (s : AgentState) : Bool :=
  s.versionPage == s.versionTotalPages || s.isLoadingVersions

/-- Which events the rendered page lets happen in a given state.  The
guards come from the render tree: the ReactQuill surface has
readOnly set to isReadOnly (line 264), so change events attributed to
direct user input cannot arise for a viewer; the save button is rendered
only when not read-only and disabled while saving (lines 228-232); the
pagination block is rendered only when more than one page was reported
(line 397), with the disabled attributes above; the restore button is
rendered only when not read-only (line 380) and obeys restoreDisabled. -/
def enabledEv (s : AgentState) : Ev → Bool
  | .socketSetup => !s.socketOpen
  | .userEdit _ src => src != "user" || !(isReadOnly s)
  | .receiveChanges _ => s.socketOpen
  | .manualSave => !(isReadOnly s) && !s.isSaving
  | .saveTimerDone => s.isSaving
  | .goBack => true
  | .unmount => true
  | .openHistory => true
  | .versionsLoaded _ _ => s.isLoadingVersions
  | .versionsLoadFailed => s.isLoadingVersions
  | .prevPage =>
      s.showHistoryModal && decide (s.versionTotalPages > 1) && !(prevPageDisabled s)
  | .nextPage =>
      s.showHistoryModal && decide (s.versionTotalPages > 1) && !(nextPageDisabled s)
  | .restoreClick _ index _ _ _ =>
      s.showHistoryModal && !(isReadOnly s) && !(restoreDisabled s index)

/-- Cleanup function returned by the socket effect, lines 87-98: when the
socket is still connected, the user has edit rights and the draft is a
truthy (non-empty) string, emit one final save-document, then disconnect;
otherwise just disconnect. -/
def socketCleanup (s : AgentState) : List Action :=
  (if s.socketConnected && !(isReadOnly s) && s.content != "" then
    [Action.emit "save-document" (saveDocumentPayload s s.content)]
  else []) ++ [Action.disconnect]

/-- One step of the agent: the handler the event triggers, translated
branch by branch from DocumentEditor.jsx.  Returns the successor state
and the ordered list of actions the handler performed.  The share modal
is omitted: handleShare performs only a REST post and never touches the
socket.  The 500 ms timer that resets isSaving is the separate
saveTimerDone event. -/
def step (s : AgentState) : Ev → AgentState × List Action
  | .socketSetup =>
      ({ s with socketOpen := true, socketConnected := true },
        [Action.emit "join-document" [("documentId", s.documentId)]])
  | .userEdit newContent src =>
      if src != "user" then (s, [])
      else
        ({ s with content := newContent },
          if s.socketOpen then
            [Action.emit "send-changes" (sendChangesPayload s newContent)]
          else [])
  | .receiveChanges incoming => ({ s with content := incoming }, [])
  | .manualSave =>
      if isReadOnly s then (s, [])
      else
        ({ s with isSaving := true },
          (if s.socketOpen then
            [Action.emit "save-document" (saveDocumentPayload s s.content)]
          else []) ++ [Action.toastSuccess "Document saved explicitly"])
  | .saveTimerDone => ({ s with isSaving := false }, [])
  | .goBack =>
      (s,
        (if !(isReadOnly s) && s.socketOpen then
          [Action.emit "save-document" (saveDocumentPayload s s.content)]
        else []) ++ [Action.navigate "/"])
  | .unmount =>
      ({ s with socketOpen := false, socketConnected := false },
        if s.socketOpen then socketCleanup s else [])
  | .openHistory =>
      ({ s with showHistoryModal := true, isLoadingVersions := true },
        [Action.fetchVersionsRequest 1 5])
  | .versionsLoaded cp tp =>
      ({ s with versionPage := cp, versionTotalPages := tp, isLoadingVersions := false },
        [])
  | .versionsLoadFailed =>
      ({ s with isLoadingVersions := false },
        [Action.toastError "Failed to load version history"])
  | .prevPage =>
      ({ s with isLoadingVersions := true },
        [Action.fetchVersionsRequest (s.versionPage - 1) 5])
  | .nextPage =>
      ({ s with isLoadingVersions := true },
        [Action.fetchVersionsRequest (s.versionPage + 1) 5])
  | .restoreClick versionId _ confirmed ok restored =>
      if !confirmed then (s, [])
      else if ok then
        ({ s with content := restored, showHistoryModal := false },
          [Action.restoreRequest versionId] ++
            (if s.socketOpen then
              [Action.emit "send-changes" (sendChangesPayload s restored)]
            else []) ++
            [Action.toastSuccess "Document restored successfully!"])
      else
        (s, [Action.restoreRequest versionId,
          Action.toastError "Failed to restore document version"])

/-- Names of the socket events emitted in an action list, in order. -/
def emittedEvents (acts : List Action) : List String :=
  acts.filterMap (fun a =>
    match a with
    | .emit e _ => some e
    | _ => none)

/-- Number of save-document emissions in an action list. -/
def saveEmitCount (acts : List Action) : Nat :=
  (acts.filter (fun a =>
    match a with
    | .emit e _ => e == "save-document"
    | _ => false)).length

/-- A concrete state in which the current user owns the document and is
connected with a non-empty draft. -/
def ownerBase : AgentState :=
  { documentId := "d1", userId := "u1", ownerId := "u1", sharedWith := [],
    content := "hello", socketOpen := true, socketConnected := true,
    isSaving := false, isRestoring := false, showHistoryModal := false,
    versionPage := 1, versionTotalPages := 1, isLoadingVersions := false }

/-- A concrete state in which the current user has no grant and so
derives the viewer role. -/
def viewerBase : AgentState := { ownerBase with userId := "u2" }

/-- A concrete editor-rights state whose socket object exists but whose
connection has already dropped. -/
def droppedEditorState : AgentState := { ownerBase with socketConnected := false }

/-- A concrete editor-rights state in which the socket object was never
created. -/
def socketlessEditorState : AgentState :=
  { ownerBase with socketOpen := false, socketConnected := false }

/-- A concrete state of a user who holds an editor grant in sharedWith. -/
def sharedEditorState : AgentState :=
  { ownerBase with userId := "u3", sharedWith := [⟨"u3", "editor"⟩] }

/-- Every fetch of the version list is issued by exactly one of three
events, with limit 5: opening the history modal requests page 1, the
previous-page control requests the page before the current one, and the
next-page control the page after it. -/
theorem fetch_request_cases (s : AgentState) (ev : Ev) (p l : Nat)
    (h : Action.fetchVersionsRequest p l ∈ (step s ev).2) :
    l = 5 ∧ ((ev = Ev.openHistory ∧ p = 1) ∨
      (ev = Ev.prevPage ∧ p = s.versionPage - 1) ∨
      (ev = Ev.nextPage ∧ p = s.versionPage + 1)) := by
  cases ev <;> simp only [step] at h <;> (try split_ifs at h) <;>
    simp_all [socketCleanup]

/-- A version-list response is well formed when the reported current page
lies between 1 and the reported total page count. -/
def wfResponse : Ev → Prop
  | .versionsLoaded cp tp => 1 ≤ cp ∧ cp ≤ tp
  | _ => True

/-- States the agent can reach from its initial pagination state
(versionPage and versionTotalPages both start at 1, lines 32-33) through
enabled events whose server responses are well formed. -/
inductive ReachableWF : AgentState → Prop where
  | init (s : AgentState) : s.versionPage = 1 → s.versionTotalPages = 1 → ReachableWF s
  | next (s : AgentState) (ev : Ev) : ReachableWF s → enabledEv s ev = true →
      wfResponse ev → ReachableWF (step s ev).1

/-- In every reachable state the current version page lies between 1 and
the reported total page count. -/
theorem reachable_page_in_bounds (s : AgentState) (h : ReachableWF s) :
    1 ≤ s.versionPage ∧ s.versionPage ≤ s.versionTotalPages := by
  induction h with
  | init s h1 h2 => simp [h1, h2]
  | next s ev hr hen hwf ih =>
      cases ev <;>
        simp_all [step, enabledEv, wfResponse, prevPageDisabled, nextPageDisabled] <;>
        split_ifs <;> simp_all

/-- Claim C1: in every state whose derived role for the current user is
viewer, no enabled event makes the agent emit send-changes or
save-document; in particular the user-edit handler, the explicit save
action, the back-navigation handler and the unmount cleanup all refrain
from emitting for a viewer. -/
theorem viewer_never_emits_changes_or_save (s : AgentState) (ev : Ev)
    (hen : enabledEv s ev = true) (hview : userRole s = "viewer") :
    "send-changes" ∉ emittedEvents (step s ev).2 ∧
    "save-document" ∉ emittedEvents (step s ev).2 := by
  have hro : isReadOnly s = true := by simp [isReadOnly, hview]
  cases ev <;>
    simp_all [step, enabledEv, emittedEvents, socketCleanup, restoreDisabled,
      prevPageDisabled, nextPageDisabled]

/-- Witness for claim C1: a concrete viewer pressing the back button
emits neither send-changes nor save-document. -/
theorem viewer_never_emits_changes_or_save_witness :
    "send-changes" ∉ emittedEvents (step viewerBase Ev.goBack).2 ∧
    "save-document" ∉ emittedEvents (step viewerBase Ev.goBack).2 :=
  viewer_never_emits_changes_or_save viewerBase Ev.goBack (by decide) (by decide)

/-- Claim C2, counterexample: a concrete state with edit rights and a
non-empty draft in which the socket connection has already dropped; the
unmount cleanup then emits no save-document at all, refuting the claim
that edit rights plus a non-empty draft alone guarantee exactly one
save-document emission. -/
theorem unmount_flush_skipped_when_disconnected :
    isReadOnly droppedEditorState = false ∧
    droppedEditorState.content ≠ "" ∧
    droppedEditorState.socketOpen = true ∧
    (step droppedEditorState Ev.unmount).2 = [Action.disconnect] ∧
    saveEmitCount (step droppedEditorState Ev.unmount).2 = 0 := by decide

/-- Claim C2 as amended: on unmount, if the agent holds edit rights, the
latest draft is non-empty and the socket is still connected, the cleanup
performs exactly one save-document emission, carrying the latest draft
content and the current user id, and the disconnect comes only after
that emission. -/
theorem unmount_flush_one_save_before_disconnect (s : AgentState)
    (hro : isReadOnly s = false) (hc : s.content ≠ "")
    (hopen : s.socketOpen = true) (hconn : s.socketConnected = true) :
    (step s Ev.unmount).2 =
      [Action.emit "save-document"
        [("documentId", s.documentId), ("content", s.content), ("savedBy", s.userId)],
       Action.disconnect] ∧
    saveEmitCount (step s Ev.unmount).2 = 1 := by
  simp_all [step, socketCleanup, saveDocumentPayload, saveEmitCount, bne_iff_ne]

/-- Witness for the amended claim C2 at a concrete connected owner
state. -/
theorem unmount_flush_one_save_before_disconnect_witness :
    (step ownerBase Ev.unmount).2 =
      [Action.emit "save-document"
        [("documentId", ownerBase.documentId), ("content", ownerBase.content),
         ("savedBy", ownerBase.userId)],
       Action.disconnect] ∧
    saveEmitCount (step ownerBase Ev.unmount).2 = 1 :=
  unmount_flush_one_save_before_disconnect ownerBase (by decide) (by decide) rfl rfl

/-- Claim C3: a receive-changes payload overwrites the local draft
unconditionally and emits nothing; a change event whose source is not
"user" neither updates the draft nor emits; and a change event sourced
from direct user input updates the draft and immediately emits
send-changes with the new content. -/
theorem remote_overwrite_never_reemits (s : AgentState)
    (incoming newContent src : String) (hsock : s.socketOpen = true) :
    (step s (Ev.receiveChanges incoming)).1.content = incoming ∧
    (step s (Ev.receiveChanges incoming)).2 = [] ∧
    (src ≠ "user" → step s (Ev.userEdit newContent src) = (s, [])) ∧
    (step s (Ev.userEdit newContent "user")).1.content = newContent ∧
    (step s (Ev.userEdit newContent "user")).2 =
      [Action.emit "send-changes" (sendChangesPayload s newContent)] := by
  refine ⟨rfl, rfl, ?_, ?_, ?_⟩
  · intro h
    simp [step, bne_iff_ne, h]
  · simp [step]
  · simp [step, hsock]

/-- Witness for claim C3 at a concrete connected owner state, with a
programmatic "api" change and a direct user change. -/
theorem remote_overwrite_never_reemits_witness :
    (step ownerBase (Ev.receiveChanges "r")).1.content = "r" ∧
    (step ownerBase (Ev.receiveChanges "r")).2 = [] ∧
    ("api" ≠ "user" → step ownerBase (Ev.userEdit "n" "api") = (ownerBase, [])) ∧
    (step ownerBase (Ev.userEdit "n" "user")).1.content = "n" ∧
    (step ownerBase (Ev.userEdit "n" "user")).2 =
      [Action.emit "send-changes" (sendChangesPayload ownerBase "n")] :=
  remote_overwrite_never_reemits ownerBase "r" "n" "api" rfl

/-- Claim C4, counterexample: a concrete user edit emits send-changes
whose payload has no field named "content"; the edited content travels
under the field name "delta" instead (line 109 of the source). -/
theorem send_changes_field_named_delta :
    (step ownerBase (Ev.userEdit "x" "user")).2 =
      [Action.emit "send-changes" [("documentId", "d1"), ("delta", "x")]] ∧
    (sendChangesPayload ownerBase "x").lookup "content" = none ∧
    (sendChangesPayload ownerBase "x").lookup "delta" = some "x" := by decide

/-- Claim C4 as amended: every send-changes event the client emits
carries a payload of shape (documentId, delta), i.e. the edited content
is transmitted under the field name "delta" alongside the document
id. -/
theorem send_changes_payload_shape (s : AgentState) (ev : Ev)
    (p : List (String × String))
    (h : Action.emit "send-changes" p ∈ (step s ev).2) :
    ∃ c, p = [("documentId", s.documentId), ("delta", c)] := by
  cases ev <;>
    simp_all [step, socketCleanup, sendChangesPayload, saveDocumentPayload] <;>
    split_ifs at h <;> simp_all

/-- Witness for the amended claim C4 at the concrete user edit of the
counterexample. -/
theorem send_changes_payload_shape_witness :
    ∃ c, [("documentId", "d1"), ("delta", "x")] =
      [("documentId", ownerBase.documentId), ("delta", c)] :=
  send_changes_payload_shape ownerBase (Ev.userEdit "x" "user")
    [("documentId", "d1"), ("delta", "x")] (by decide)

/-- Claim C5, counterexample: a concrete non-viewer state whose socket
object was never created; the explicit save action then emits nothing at
all, yet still notifies the user of success, refuting the claim that a
success notification implies the save succeeded. -/
theorem manual_save_success_without_emit :
    isReadOnly socketlessEditorState = false ∧
    emittedEvents (step socketlessEditorState Ev.manualSave).2 = [] ∧
    Action.toastSuccess "Document saved explicitly" ∈
      (step socketlessEditorState Ev.manualSave).2 := by decide

/-- Claim C5 as amended: the explicit save action of a non-viewer emits
save-document with the current draft whenever the socket object exists,
but the emission is fire-and-forget: the user is notified of success
unconditionally, even when nothing was emitted, and the error
notification is never produced because the handler awaits no
acknowledgement. -/
theorem manual_save_reports_success_unconditionally (s : AgentState)
    (m : String) (hro : isReadOnly s = false) :
    Action.toastSuccess "Document saved explicitly" ∈ (step s Ev.manualSave).2 ∧
    Action.toastError m ∉ (step s Ev.manualSave).2 ∧
    (s.socketOpen = true →
      (step s Ev.manualSave).2 =
        [Action.emit "save-document" (saveDocumentPayload s s.content),
         Action.toastSuccess "Document saved explicitly"]) := by
  refine ⟨?_, ?_, ?_⟩ <;> simp_all [step]

/-- Witness for the amended claim C5 at a concrete connected owner
state. -/
theorem manual_save_reports_success_unconditionally_witness :
    Action.toastSuccess "Document saved explicitly" ∈ (step ownerBase Ev.manualSave).2 ∧
    Action.toastError "Error saving document" ∉ (step ownerBase Ev.manualSave).2 ∧
    (ownerBase.socketOpen = true →
      (step ownerBase Ev.manualSave).2 =
        [Action.emit "save-document" (saveDocumentPayload ownerBase ownerBase.content),
         Action.toastSuccess "Document saved explicitly"]) :=
  manual_save_reports_success_unconditionally ownerBase "Error saving document" (by decide)

/-- Claim C6: the derived role is "owner" when the owner id of the
document equals the current user id; otherwise it is the (non-empty)
role recorded for the user in sharedWith; otherwise "viewer" when no
grant exists; and the editing surface is read-only exactly when the
derived role is "viewer". -/
theorem role_derivation_matches_document (s : AgentState) (e : SharedEntry) :
    (s.ownerId = s.userId → userRole s = "owner") ∧
    (s.ownerId ≠ s.userId →
      s.sharedWith.find? (fun x => x.userId == s.userId) = some e →
      e.role ≠ "" → userRole s = e.role) ∧
    (s.ownerId ≠ s.userId →
      s.sharedWith.find? (fun x => x.userId == s.userId) = none →
      userRole s = "viewer") ∧
    (isReadOnly s = true ↔ userRole s = "viewer") := by
  refine ⟨?_, ?_, ?_, ?_⟩
  · intro h
    simp [userRole, isOwner, h]
  · intro hne hfind hrole
    simp [userRole, isOwner, bne_iff_ne, hne, hfind, hrole]
  · intro hne hfind
    simp [userRole, isOwner, hne, hfind]
  · simp [isReadOnly]

/-- Witness for claim C6 at a concrete state holding an editor grant. -/
theorem role_derivation_matches_document_witness :
    (sharedEditorState.ownerId = sharedEditorState.userId →
      userRole sharedEditorState = "owner") ∧
    (sharedEditorState.ownerId ≠ sharedEditorState.userId →
      sharedEditorState.sharedWith.find?
        (fun x => x.userId == sharedEditorState.userId) = some ⟨"u3", "editor"⟩ →
      SharedEntry.role ⟨"u3", "editor"⟩ ≠ "" →
      userRole sharedEditorState = SharedEntry.role ⟨"u3", "editor"⟩) ∧
    (sharedEditorState.ownerId ≠ sharedEditorState.userId →
      sharedEditorState.sharedWith.find?
        (fun x => x.userId == sharedEditorState.userId) = none →
      userRole sharedEditorState = "viewer") ∧
    (isReadOnly sharedEditorState = true ↔ userRole sharedEditorState = "viewer") :=
  role_derivation_matches_document sharedEditorState ⟨"u3", "editor"⟩

/-- Claim C7: after a confirmed restore whose REST call succeeds, the
local draft equals the restored content and a send-changes emission
carrying that content goes to the room; when the call fails, the state
is unchanged and nothing is emitted. -/
theorem restore_success_updates_draft_and_broadcasts (s : AgentState)
    (versionId restored : String) (index : Nat) (hsock : s.socketOpen = true) :
    (step s (Ev.restoreClick versionId index true true restored)).1.content = restored ∧
    Action.emit "send-changes" (sendChangesPayload s restored) ∈
      (step s (Ev.restoreClick versionId index true true restored)).2 ∧
    (step s (Ev.restoreClick versionId index true false restored)).1 = s ∧
    emittedEvents (step s (Ev.restoreClick versionId index true false restored)).2 = [] := by
  refine ⟨?_, ?_, ?_, ?_⟩ <;> simp [step, hsock, emittedEvents]

/-- Witness for claim C7 at a concrete connected owner state. -/
theorem restore_success_updates_draft_and_broadcasts_witness :
    (step ownerBase (Ev.restoreClick "v2" 1 true true "z")).1.content = "z" ∧
    Action.emit "send-changes" (sendChangesPayload ownerBase "z") ∈
      (step ownerBase (Ev.restoreClick "v2" 1 true true "z")).2 ∧
    (step ownerBase (Ev.restoreClick "v2" 1 true false "z")).1 = ownerBase ∧
    emittedEvents (step ownerBase (Ev.restoreClick "v2" 1 true false "z")).2 = [] :=
  restore_success_updates_draft_and_broadcasts ownerBase "v2" "z" 1 rfl

/-- Claim C8: the client runs no autosave timer event; whenever a step of
the agent emits save-document, the triggering event is the explicit save
action, the back-navigation handler or the unmount cleanup. -/
theorem save_document_only_on_three_triggers (s : AgentState) (ev : Ev)
    (h : "save-document" ∈ emittedEvents (step s ev).2) :
    ev = Ev.manualSave ∨ ev = Ev.goBack ∨ ev = Ev.unmount := by
  cases ev <;>
    simp_all [step, emittedEvents, socketCleanup] <;>
    split_ifs at h <;> simp_all

/-- Witness for claim C8: the concrete save-document emission of the
back-navigation handler is attributed to the goBack trigger. -/
theorem save_document_only_on_three_triggers_witness :
    Ev.goBack = Ev.manualSave ∨ Ev.goBack = Ev.goBack ∨ Ev.goBack = Ev.unmount :=
  save_document_only_on_three_triggers ownerBase Ev.goBack (by decide)

/-- Claim C9: on page 1 the restore button of the first displayed
snapshot is always disabled, every restore button is disabled while a
restore is in flight, and an enabled restore click implies the target is
not the newest snapshot and no restore is in flight. -/
theorem newest_snapshot_restore_disabled (s : AgentState)
    (versionId restored : String) (index : Nat) (confirmed ok : Bool) :
    (s.versionPage = 1 → restoreDisabled s 0 = true) ∧
    (s.isRestoring = true → restoreDisabled s index = true) ∧
    (enabledEv s (Ev.restoreClick versionId index confirmed ok restored) = true →
      ¬(index = 0 ∧ s.versionPage = 1) ∧ s.isRestoring = false) := by
  refine ⟨?_, ?_, ?_⟩ <;> simp [restoreDisabled, enabledEv] <;> intros <;> simp_all
  tauto

/-- Witness for claim C9 at a concrete state at page 1 with a restore
click on a non-newest snapshot. -/
theorem newest_snapshot_restore_disabled_witness :
    (ownerBase.versionPage = 1 → restoreDisabled ownerBase 0 = true) ∧
    (ownerBase.isRestoring = true → restoreDisabled ownerBase 2 = true) ∧
    (enabledEv ownerBase (Ev.restoreClick "v3" 2 true true "w") = true →
      ¬(2 = 0 ∧ ownerBase.versionPage = 1) ∧ ownerBase.isRestoring = false) :=
  newest_snapshot_restore_disabled ownerBase "v3" "w" 2 true true

/-- Claim C10: from any reachable state under well-formed version-list
responses, every version-list request an enabled event issues has
limit 5 and a page number between 1 and the reported total page count;
opening the history modal always requests page 1 with limit 5; the
previous-page control is disabled on page 1 and the next-page control on
the last reported page. -/
theorem version_requests_stay_in_bounds (s : AgentState) (ev : Ev)
    (hr : ReachableWF s) (hen : enabledEv s ev = true)
    (p l : Nat) (hreq : Action.fetchVersionsRequest p l ∈ (step s ev).2) :
    l = 5 ∧ 1 ≤ p ∧ p ≤ s.versionTotalPages ∧
    (step s Ev.openHistory).2 = [Action.fetchVersionsRequest 1 5] ∧
    (s.versionPage = 1 → enabledEv s Ev.prevPage = false) ∧
    (s.versionPage = s.versionTotalPages → enabledEv s Ev.nextPage = false) := by
  have hb := reachable_page_in_bounds s hr
  have hc := fetch_request_cases s ev p l hreq
  refine ⟨hc.1, ?_, ?_, by simp [step], ?_, ?_⟩
  · rcases hc.2 with ⟨he, hp⟩ | ⟨he, hp⟩ | ⟨he, hp⟩ <;> subst he <;>
      simp_all [enabledEv, prevPageDisabled, nextPageDisabled] <;> omega
  · rcases hc.2 with ⟨he, hp⟩ | ⟨he, hp⟩ | ⟨he, hp⟩ <;> subst he <;>
      simp_all [enabledEv, prevPageDisabled, nextPageDisabled] <;> omega
  · intro h1
    simp [enabledEv, prevPageDisabled, h1]
  · intro h2
    simp [enabledEv, nextPageDisabled, h2]

/-- Witness for claim C10: opening the history modal from the initial
concrete owner state requests page 1 with limit 5, in bounds. -/
theorem version_requests_stay_in_bounds_witness :
    5 = 5 ∧ 1 ≤ 1 ∧ 1 ≤ ownerBase.versionTotalPages ∧
    (step ownerBase Ev.openHistory).2 = [Action.fetchVersionsRequest 1 5] ∧
    (ownerBase.versionPage = 1 → enabledEv ownerBase Ev.prevPage = false) ∧
    (ownerBase.versionPage = ownerBase.versionTotalPages →
      enabledEv ownerBase Ev.nextPage = false) :=
  version_requests_stay_in_bounds ownerBase Ev.openHistory
    (ReachableWF.init ownerBase rfl rfl) (by decide) 1 5 (by decide)

end DocCollab
